import Mathlib

set_option linter.unusedVariables false

/-!
Shallow embedding of the `plus-monitoring` repository (main.py and
src/{config,mysql,postgresql,redis,rabbitmq}.py).

Backend I/O is modelled by explicit environment values: each cycle of a probe
loop receives the outcome every external call would have (a fresh connection
handle or a raised exception, a query row or a raised exception, ...), and the
embedded functions reproduce the control flow of the Python source on those
outcomes.  Python exceptions are the `PyExc` type; `Except PyExc` marks code
that can let an exception escape, while functions whose Python counterpart
catches every `Exception` are total.
-/

/-- Python exception classes that the source can raise or catch. -/
inductive PyExc where
  /-- mysql.connector.Error -/
  | mysqlError
  /-- psycopg2.Error -/
  | psycopgError
  /-- redis.RedisError or any other error raised by the redis client -/
  | redisError
  /-- pika.exceptions.AMQPError -/
  | pikaError
  /-- AttributeError, e.g. calling .cursor() on None -/
  | attributeError
  /-- TypeError, e.g. subscripting None -/
  | typeError
  /-- ModuleNotFoundError from importlib.import_module -/
  | moduleNotFoundError
  deriving DecidableEq, Repr

/-- A live backend connection handle.  `is_closed` is the observable
closed-ness of the handle (pika's `connection.is_closed`, psycopg2's
`connection.closed`); the handle object itself is always truthy in Python. -/
structure Conn where
  id : Nat
  is_closed : Bool
  deriving DecidableEq, Repr

/-- Outcome of one call to the underlying client-library connect routine. -/
inductive ConnAttempt where
  /-- the library returns a fresh connection handle -/
  | ok (c : Conn)
  /-- the library raises exception `e` -/
  | raises (e : PyExc)
  deriving DecidableEq, Repr

/-- The `authentication` dict of a relational-database service:
`.get("username", None)`, `.get("password", None)`, `.get("db", None)`. -/
structure AuthDict where
  username : Option String
  password : Option String
  db : Option String
  deriving DecidableEq, Repr

/-! ### src/mysql.py -/

/-- Fields of the `MySQLConnection` singleton instance. -/
structure MySQLConnState where
  username : Option String
  password : Option String
  database : Option String
  fqdn : String
  port : Nat
  connection : Option Conn
  deriving DecidableEq, Repr

/-- `MySQLConnection.__new__`: `cls._instance` is process-wide class state
(`instance` argument); a first construction fills the fields from the
arguments, any later construction returns the existing instance unchanged. -/
def MySQLConnection.new (inst : Option MySQLConnState) (authentication : AuthDict)
    (fqdn : String) (port : Nat) : MySQLConnState :=
  match inst with
  | none =>
      { username := authentication.username
        password := authentication.password
        database := authentication.db
        fqdn := fqdn
        port := port
        connection := none }
  | some inst => inst

/-- `MySQLConnection.connect`: calls `mysql.connector.connect`; only
`mysql.connector.Error` is caught (logged, state unchanged); any other
exception propagates.  On success the fresh handle is cached. -/
def MySQLConnection.connect (s : MySQLConnState) (attempt : ConnAttempt) :
    Except PyExc MySQLConnState :=
  match attempt with
  | .ok c => .ok { s with connection := some c }
  | .raises e => if e = .mysqlError then .ok s else .error e

/-- `MySQLConnection.get_connection(force)`: reconnect when forced or when no
connection object is cached (`not self.connection`; a cached handle is always
truthy).  Returns the connection returned to the caller, the new driver state,
and whether `connect()` was called. -/
def MySQLConnection.get_connection (s : MySQLConnState) (force : Bool)
    (attempt : ConnAttempt) : Except PyExc (Option Conn × MySQLConnState × Bool) :=
  if force then
    match MySQLConnection.connect s attempt with
    | .error e => .error e
    | .ok s2 => .ok (s2.connection, s2, true)
  else if s.connection = none then
    match MySQLConnection.connect s attempt with
    | .error e => .error e
    | .ok s2 => .ok (s2.connection, s2, true)
  else
    .ok (s.connection, s, false)

/-- Outcome of `cursor.execute("SELECT 1"); cursor.fetchone()[0]`. -/
inductive QueryRes where
  /-- the query returns a row whose first column is `v` -/
  | row (v : Int)
  /-- executing or fetching raises exception `e` -/
  | raises (e : PyExc)
  deriving DecidableEq, Repr

/-- External outcomes available to one cycle of a relational probe loop. -/
structure DbEnv where
  attempt : ConnAttempt
  query : QueryRes
  deriving DecidableEq, Repr

/-- Mutable state of a `mysql_test` instance: its `MySQLConnection` and
`self.result`. -/
structure MysqlTestState where
  conn : MySQLConnState
  result : Bool
  deriving DecidableEq, Repr

/-- Observables of one completed cycle of `mysql_test.query_check`. -/
structure MysqlCycleOut where
  state : MysqlTestState
  metricVal : Nat
  forceUsed : Bool
  connectCalled : Bool
  deriving DecidableEq, Repr

/-- One iteration of the `while` loop in `mysql_test.query_check`: choose
`force` from `self.result`, obtain a connection, run the probe query, update
`self.result`, and write the gauge.  Only `mysql.connector.Error` is caught at
the loop boundary; any other exception (notably the `AttributeError` from
`None.cursor()` when `connect` failed) escapes as `.error`. -/
def mysql_test.query_check_cycle (st : MysqlTestState) (env : DbEnv) :
    Except PyExc MysqlCycleOut :=
  match MySQLConnection.get_connection st.conn (!st.result) env.attempt with
  | .error e =>
      if e = .mysqlError then
        .ok { state := { conn := st.conn, result := false }, metricVal := 0,
              forceUsed := !st.result, connectCalled := true }
      else .error e
  | .ok (connOpt, cs, called) =>
      match connOpt with
      | none => .error .attributeError
      | some _ =>
          match env.query with
          | .raises e =>
              if e = .mysqlError then
                .ok { state := { conn := cs, result := false }, metricVal := 0,
                      forceUsed := !st.result, connectCalled := called }
              else .error e
          | .row v =>
              .ok { state := { conn := cs, result := v == 1 },
                    metricVal := if v == 1 then 1 else 0,
                    forceUsed := !st.result, connectCalled := called }

/-- The `mysql_test.query_check` loop run on a list of per-cycle environments:
returns the sequence of gauge writes and, when an uncaught exception
terminated the loop, that exception. -/
def mysql_test.query_check (st : MysqlTestState) :
    List DbEnv → List Nat × Option PyExc
  | [] => ([], none)
  | env :: rest =>
      match mysql_test.query_check_cycle st env with
      | .error e => ([], some e)
      | .ok out =>
          let (tr, d) := mysql_test.query_check out.state rest
          (out.metricVal :: tr, d)

/-! Concrete data used by counterexamples and witnesses. -/

def demoAuth1 : AuthDict := { username := some "u1", password := some "p1", db := some "d1" }

def demoAuth2 : AuthDict := { username := some "u2", password := some "p2", db := some "d2" }

/-- Driver instance built for the first configured mysql service. -/
def demoMySQL1 : MySQLConnState := MySQLConnection.new none demoAuth1 "db-a.example" 3306

/-- Driver instance handed to the second configured mysql service: the class
already holds `demoMySQL1`. -/
def demoMySQL2 : MySQLConnState :=
  MySQLConnection.new (some demoMySQL1) demoAuth2 "db-b.example" 3307

/-- Initial `mysql_test` state for `demoMySQL1` (`self.result = False`). -/
def mysqlInitState : MysqlTestState := { conn := demoMySQL1, result := false }

/-- Environment of a cycle whose backend is unreachable: the underlying
connect raises `mysql.connector.Error`. -/
def envConnFail : DbEnv := { attempt := .raises .mysqlError, query := .row 1 }

/-- Environment of a fully healthy cycle. -/
def envOk : DbEnv := { attempt := .ok ⟨1, false⟩, query := .row 1 }

/-- Environment where the connection opens but the query raises the driver
error class. -/
def envQueryErr : DbEnv := { attempt := .ok ⟨2, false⟩, query := .raises .mysqlError }

/-- A mysql driver state that already caches a (stale) connection handle. -/
def staleMySQL : MySQLConnState := { demoMySQL1 with connection := some ⟨5, false⟩ }

/-! ### src/postgresql.py -/

/-- Fields of the `PostgreSQLConnection` singleton instance. -/
structure PostgreSQLConnState where
  username : Option String
  password : Option String
  database : Option String
  fqdn : String
  port : Nat
  connection : Option Conn
  deriving DecidableEq, Repr

/-- `PostgreSQLConnection.__new__`: same process-wide singleton pattern as
`MySQLConnection.new`. -/
def PostgreSQLConnection.new (inst : Option PostgreSQLConnState)
    (authentication : AuthDict) (fqdn : String) (port : Nat) : PostgreSQLConnState :=
  match inst with
  | none =>
      { username := authentication.username
        password := authentication.password
        database := authentication.db
        fqdn := fqdn
        port := port
        connection := none }
  | some inst => inst

/-- `PostgreSQLConnection.connect`: calls `psycopg2.connect`; only
`psycopg2.Error` is caught (logged, state unchanged); any other exception
propagates. -/
def PostgreSQLConnection.connect (s : PostgreSQLConnState) (attempt : ConnAttempt) :
    Except PyExc PostgreSQLConnState :=
  match attempt with
  | .ok c => .ok { s with connection := some c }
  | .raises e => if e = .psycopgError then .ok s else .error e

/-- `PostgreSQLConnection.get_connection`: no `force` parameter; reconnects
only when `not self.connection`, i.e. when nothing is cached — a cached handle
is returned even when it is observably closed. -/
def PostgreSQLConnection.get_connection (s : PostgreSQLConnState)
    (attempt : ConnAttempt) : Except PyExc (Option Conn × PostgreSQLConnState × Bool) :=
  if s.connection = none then
    match PostgreSQLConnection.connect s attempt with
    | .error e => .error e
    | .ok s2 => .ok (s2.connection, s2, true)
  else
    .ok (s.connection, s, false)

/-- Mutable state of a `postgresql_test` instance. -/
structure PgTestState where
  conn : PostgreSQLConnState
  result : Bool
  deriving DecidableEq, Repr

/-- Observables of one completed cycle of `postgresql_test.query_check`. -/
structure PgCycleOut where
  state : PgTestState
  metricVal : Nat
  connectCalled : Bool
  deriving DecidableEq, Repr

/-- One iteration of the `while` loop in `postgresql_test.query_check`; only
`psycopg2.Error` is caught at the loop boundary. -/
def postgresql_test.query_check_cycle (st : PgTestState) (env : DbEnv) :
    Except PyExc PgCycleOut :=
  match PostgreSQLConnection.get_connection st.conn env.attempt with
  | .error e =>
      if e = .psycopgError then
        .ok { state := { conn := st.conn, result := false }, metricVal := 0,
              connectCalled := true }
      else .error e
  | .ok (connOpt, cs, called) =>
      match connOpt with
      | none => .error .attributeError
      | some _ =>
          match env.query with
          | .raises e =>
              if e = .psycopgError then
                .ok { state := { conn := cs, result := false }, metricVal := 0,
                      connectCalled := called }
              else .error e
          | .row v =>
              let res : Bool := v == 1
              .ok { state := { conn := cs, result := res },
                    metricVal := if res then 1 else 0,
                    connectCalled := called }

/-- The `postgresql_test.query_check` loop run on a list of per-cycle
environments. -/
def postgresql_test.query_check (st : PgTestState) :
    List DbEnv → List Nat × Option PyExc
  | [] => ([], none)
  | env :: rest =>
      match postgresql_test.query_check_cycle st env with
      | .error e => ([], some e)
      | .ok out =>
          let (tr, d) := postgresql_test.query_check out.state rest
          (out.metricVal :: tr, d)

/-! ### src/redis.py -/

/-- The `authentication` dict of a redis service: `.get('password', None)`
and `int(.get("db", 0))`. -/
structure RedisAuth where
  password : Option String
  db : Option Nat
  deriving DecidableEq, Repr

/-- Fields of the `RedisConnection` singleton instance. -/
structure RedisConnState where
  password : Option String
  db : Nat
  fqdn : String
  port : Nat
  connection : Option Conn
  deriving DecidableEq, Repr

/-- `RedisConnection.__new__`: same process-wide singleton pattern as
`MySQLConnection.new`; `db` defaults to `0`. -/
def RedisConnection.new (inst : Option RedisConnState) (authentication : RedisAuth)
    (fqdn : String) (port : Nat) : RedisConnState :=
  match inst with
  | none =>
      { password := authentication.password
        db := authentication.db.getD 0
        fqdn := fqdn
        port := port
        connection := none }
  | some inst => inst

/-- `RedisConnection.connect`: builds a `redis.StrictRedis` client; `except
Exception` catches every exception, so this never raises — on error the state
is simply unchanged. -/
def RedisConnection.connect (s : RedisConnState) (attempt : ConnAttempt) :
    RedisConnState :=
  match attempt with
  | .ok c => { s with connection := some c }
  | .raises _ => s

/-- `RedisConnection.get_connection`: reconnects only when `not
self.connection`, i.e. when no client is cached. -/
def RedisConnection.get_connection (s : RedisConnState) (attempt : ConnAttempt) :
    Option Conn × RedisConnState × Bool :=
  if s.connection = none then
    let s2 := RedisConnection.connect s attempt
    (s2.connection, s2, true)
  else
    (s.connection, s, false)

/-- `redis_test.payload` = `'DEVOPS_TEST_VALUE'`. -/
def redisPayload : String := "DEVOPS_TEST_VALUE"

deriving instance DecidableEq for Except

/-- External outcomes available to one cycle of `redis_test.test_redis`:
the result of each redis client call, in the order the code makes them. -/
structure RedisEnv where
  attempt : ConnAttempt
  setRes : Except PyExc Unit
  getRes : Except PyExc (Option String)
  incrRes : Except PyExc Nat
  counterGetRes : Except PyExc (Option String)
  delKeyRes : Except PyExc Nat
  delCounterRes : Except PyExc Nat
  existsRes : Except PyExc Nat
  deriving DecidableEq, Repr

/-- Mutable state of a `redis_test` instance. -/
structure RedisTestState where
  conn : RedisConnState
  result : Bool
  deriving DecidableEq, Repr

/-- The body of the `try` block of `redis_test.test_redis`, evaluated on the
obtained connection: set the sentinel key, read it back and compare to the
payload, increment and read the counter, delete both keys, and check that the
sentinel key no longer exists.  A `none` connection raises `AttributeError`
at the first method call, as does decoding a `None` counter value. -/
def redisTryBody (conn : Option Conn) (env : RedisEnv) : Except PyExc Bool :=
  match conn with
  | none => .error .attributeError
  | some _ =>
      match env.setRes with
      | .error e => .error e
      | .ok _ =>
          match env.getRes with
          | .error e => .error e
          | .ok none => .ok false
          | .ok (some v) =>
              if v = redisPayload then
                match env.incrRes with
                | .error e => .error e
                | .ok _ =>
                    match env.counterGetRes with
                    | .error e => .error e
                    | .ok none => .error .attributeError
                    | .ok (some _) =>
                        match env.delKeyRes with
                        | .error e => .error e
                        | .ok _ =>
                            match env.delCounterRes with
                            | .error e => .error e
                            | .ok _ =>
                                match env.existsRes with
                                | .error e => .error e
                                | .ok keyExists => .ok (keyExists == 0)
              else .ok false

/-- One iteration of the `while` loop in `redis_test.test_redis`: `except
Exception` catches everything, so a cycle always completes and writes the
gauge. -/
def redis_test.test_redis_cycle (st : RedisTestState) (env : RedisEnv) :
    RedisTestState × Nat :=
  let (connOpt, cs, _) := RedisConnection.get_connection st.conn env.attempt
  match redisTryBody connOpt env with
  | .ok res => ({ conn := cs, result := res }, if res then 1 else 0)
  | .error _ => ({ conn := cs, result := false }, 0)

/-- The `redis_test.test_redis` loop run on a list of per-cycle environments:
the sequence of gauge writes (the loop can never die on an exception). -/
def redis_test.test_redis (st : RedisTestState) : List RedisEnv → List Nat
  | [] => []
  | env :: rest =>
      (redis_test.test_redis_cycle st env).2 ::
        redis_test.test_redis (redis_test.test_redis_cycle st env).1 rest

/-- Success condition of the cache exercise, written from the specified
sub-step list: every client call succeeds in order, the read-back value equals
the payload, and the post-delete existence check reports the key absent. -/
def redisExerciseSpec (conn : Option Conn) (env : RedisEnv) : Bool :=
  match conn, env.setRes, env.getRes, env.incrRes, env.counterGetRes,
      env.delKeyRes, env.delCounterRes, env.existsRes with
  | some _, .ok _, .ok (some v), .ok _, .ok (some _), .ok _, .ok _, .ok n =>
      v == redisPayload && n == 0
  | _, _, _, _, _, _, _, _ => false

/-! ### src/rabbitmq.py -/

/-- The `authentication` dict of a rabbitmq service. -/
structure RabbitAuth where
  username : Option String
  password : Option String
  deriving DecidableEq, Repr

/-- Fields of the `RabbitMQConnection` singleton instance. -/
structure RabbitMQConnState where
  username : Option String
  password : Option String
  fqdn : String
  port : Nat
  connection : Option Conn
  deriving DecidableEq, Repr

/-- `RabbitMQConnection.__new__`: same process-wide singleton pattern as
`MySQLConnection.new`. -/
def RabbitMQConnection.new (inst : Option RabbitMQConnState)
    (authentication : RabbitAuth) (fqdn : String) (port : Nat) : RabbitMQConnState :=
  match inst with
  | none =>
      { username := authentication.username
        password := authentication.password
        fqdn := fqdn
        port := port
        connection := none }
  | some inst => inst

/-- `RabbitMQConnection.connect`: builds a `pika.BlockingConnection`; `except
Exception` catches every exception, so this never raises. -/
def RabbitMQConnection.connect (s : RabbitMQConnState) (attempt : ConnAttempt) :
    RabbitMQConnState :=
  match attempt with
  | .ok c => { s with connection := some c }
  | .raises _ => s

/-- `RabbitMQConnection.get_connection`: reconnects when nothing is cached or
when the cached connection reports `is_closed`. -/
def RabbitMQConnection.get_connection (s : RabbitMQConnState) (attempt : ConnAttempt) :
    Option Conn × RabbitMQConnState × Bool :=
  match s.connection with
  | none =>
      let s2 := RabbitMQConnection.connect s attempt
      (s2.connection, s2, true)
  | some c =>
      if c.is_closed then
        let s2 := RabbitMQConnection.connect s attempt
        (s2.connection, s2, true)
      else
        (some c, s, false)

/-- Mutable state of a `rabbitmq_test` instance (it never touches
`self.result`; each sub-probe writes the gauge directly). -/
structure RabbitTestState where
  conn : RabbitMQConnState
  deriving DecidableEq, Repr

/-- External outcomes available to one cycle of
`rabbitmq_test.send_message_test`. -/
structure RabbitSendEnv where
  attempt : ConnAttempt
  channelRes : Except PyExc Unit
  declareRes : Except PyExc Unit
  publishRes : Except PyExc Unit
  deriving DecidableEq, Repr

/-- One iteration of the `while` loop in `rabbitmq_test.send_message_test`:
obtain a connection, open a channel, declare the queue, publish the payload;
on success write 1, on any exception (all are caught) write 0. -/
def rabbitmq_test.send_message_test_cycle (st : RabbitTestState) (env : RabbitSendEnv) :
    RabbitTestState × Nat :=
  let (connOpt, cs, _) := RabbitMQConnection.get_connection st.conn env.attempt
  let okCycle : Bool :=
    match connOpt, env.channelRes, env.declareRes, env.publishRes with
    | some _, .ok _, .ok _, .ok _ => true
    | _, _, _, _ => false
  ({ conn := cs }, if okCycle then 1 else 0)

/-- The `rabbitmq_test.send_message_test` loop run on a list of per-cycle
environments: the sequence of gauge writes. -/
def rabbitmq_test.send_message_test (st : RabbitTestState) :
    List RabbitSendEnv → List Nat
  | [] => []
  | env :: rest =>
      (rabbitmq_test.send_message_test_cycle st env).2 ::
        rabbitmq_test.send_message_test (rabbitmq_test.send_message_test_cycle st env).1 rest

/-- External outcomes available to one cycle of
`rabbitmq_test.read_message_test`: the setup call results, the number of
messages `start_consuming` delivers to the callback, and whether consumption
ends by an exception. -/
structure RabbitReadEnv where
  attempt : ConnAttempt
  channelRes : Except PyExc Unit
  declareRes : Except PyExc Unit
  messages : Nat
  endsByError : Bool
  deriving DecidableEq, Repr

/-- One iteration of the `while` loop in `rabbitmq_test.read_message_test`:
the callback writes 1 for every delivered message; if any step raises, the
handler writes 0.  Returns the list of gauge writes of the cycle. -/
def rabbitmq_test.read_message_test_cycle (st : RabbitTestState) (env : RabbitReadEnv) :
    RabbitTestState × List Nat :=
  match (RabbitMQConnection.get_connection st.conn env.attempt).1,
      env.channelRes, env.declareRes with
  | some _, .ok _, .ok _ =>
      ({ conn := (RabbitMQConnection.get_connection st.conn env.attempt).2.1 },
        List.replicate env.messages 1 ++ if env.endsByError then [0] else [])
  | _, _, _ =>
      ({ conn := (RabbitMQConnection.get_connection st.conn env.attempt).2.1 }, [0])

/-- The `rabbitmq_test.read_message_test` loop run on a list of per-cycle
environments: the concatenated sequence of gauge writes. -/
def rabbitmq_test.read_message_test (st : RabbitTestState) :
    List RabbitReadEnv → List Nat
  | [] => []
  | env :: rest =>
      (rabbitmq_test.read_message_test_cycle st env).2 ++
        rabbitmq_test.read_message_test (rabbitmq_test.read_message_test_cycle st env).1 rest

/-! ### src/config.py and main.py -/

/-- What the file system holds at a path, as seen by `Config.conf`:
a parseable YAML mapping (whose `services` key may be absent), or a file that
is missing or fails to parse. -/
inductive YamlFile where
  /-- the file opens and parses to a dict; `services` is `dict.get("services", None)` -/
  | yaml (services : Option (List (String × String)))
  /-- opening or parsing raises; `Config.conf` catches this -/
  | unreadable

/-- Service entries are modelled as `(name, type)` pairs: the `type` field is
all that `create_monitoring_thread`'s dispatch inspects. -/
abbrev Services := List (String × String)

/-- The `conf_file` local of `Config.conf`: the test-file assignment is
immediately overwritten by the production path. -/
def Config.conf_file : String :=
  let conf_file := "conf-test.yml"
  let conf_file := "/config/conf.yml"
  conf_file

/-- `Config.conf` evaluated against a file system `fs`: opens
`Config.conf_file`; on any error returns `{}` (a dict with no `services` key)
and logs at critical severity (second component). -/
def Config.conf (fs : String → YamlFile) : Option Services × Bool :=
  match fs Config.conf_file with
  | .yaml services => (services, false)
  | .unreadable => (none, true)

/-- `Config.services`: `self.conf.get("services", None)` — `none` both when
the key is absent and when the config failed to load (empty dict). -/
def Config.services (fs : String → YamlFile) : Option Services :=
  (Config.conf fs).1

/-- Modules that exist under `src/` (importlib.import_module succeeds). -/
def srcModules : List String := ["base", "config", "logger", "mysql", "postgresql", "rabbitmq", "redis"]

/-- Modules under `src/` that define a `{type}_test` class (getattr succeeds). -/
def testClassModules : List String := ["mysql", "postgresql", "rabbitmq", "redis"]

/-- `importlib.import_module(f'src.{service_type}')`: succeeds exactly for the
modules present in `src/`, otherwise raises `ModuleNotFoundError`. -/
def importModule (serviceType : String) : Except PyExc String :=
  if serviceType ∈ srcModules then .ok serviceType
  else .error .moduleNotFoundError

/-- `create_monitoring_thread(service, data)`: dynamic dispatch — import the
module named by the service type, look up its `{type}_test` attribute,
instantiate it and start a thread.  No exception is caught here; an unknown
type raises `ModuleNotFoundError` (or `AttributeError` when the module exists
but holds no test class).  On success the started thread is identified by the
service name. -/
def create_monitoring_thread (service : String) (serviceType : String) :
    Except PyExc String :=
  match importModule serviceType with
  | .error e => .error e
  | .ok m =>
      if m ∈ testClassModules then .ok service
      else .error .attributeError

/-- The `for service, data in services.items()` loop of `trigger_monitoring`:
starts one monitoring thread per service, in order, with no exception
handling — the first failing `create_monitoring_thread` aborts the loop.
Returns the services whose threads were started and the escaped exception,
if any. -/
def startServices : Services → List String × Option PyExc
  | [] => ([], none)
  | (name, ty) :: rest =>
      match create_monitoring_thread name ty with
      | .error e => ([], some e)
      | .ok t =>
          let (ts, d) := startServices rest
          (t :: ts, d)

/-- Observable outcome of `trigger_monitoring`. -/
structure TriggerOutcome where
  /-- the census (active-thread-count) thread was started -/
  censusStarted : Bool
  /-- services whose monitoring threads were started -/
  started : List String
  /-- the exception that escaped `trigger_monitoring`, if any -/
  raised : Option PyExc
  deriving DecidableEq, Repr

/-- `trigger_monitoring` evaluated against a file system: load the config,
start the census thread, then start one thread per service.  When
`Config.services` is `None`, `services.items()` raises `AttributeError`,
which nothing catches. -/
def trigger_monitoring (fs : String → YamlFile) : TriggerOutcome :=
  match Config.services fs with
  | none => { censusStarted := true, started := [], raised := some .attributeError }
  | some svcs =>
      let (ts, d) := startServices svcs
      { censusStarted := true, started := ts, raised := d }

/-! ### Further concrete data for counterexamples and witnesses -/

/-- A postgresql driver state caching an observably closed connection
(psycopg2 `connection.closed` true). -/
def pgClosedState : PostgreSQLConnState :=
  { username := some "u", password := some "p", database := some "d",
    fqdn := "pg.example", port := 5432, connection := some ⟨7, true⟩ }

/-- A service list whose first entry declares a type with no matching module
and whose second entry is perfectly valid. -/
def demoServicesBadFirst : Services := [("svc-bad", "mongodb"), ("svc-good", "redis")]

/-- A file system on which every path is missing or unparseable. -/
def fsMissing : String → YamlFile := fun _ => .unreadable

/-- A file system on which only the test configuration file exists. -/
def fsTestOnly : String → YamlFile := fun p =>
  if p = "conf-test.yml" then .yaml (some [("only-in-test", "redis")]) else .unreadable

/-! ## Theorems -/

/-- Claim C10 (confirmed): on every call `Config.conf` reads the fixed path
/config/conf.yml — the preceding assignment of the test-file path
conf-test.yml is immediately overwritten, so the content of conf-test.yml can
never influence any execution. -/
theorem C10_conf_reads_fixed_path :
    Config.conf_file = "/config/conf.yml" ∧
    ∀ fs fs2 : String → YamlFile,
      (∀ p, p ≠ "conf-test.yml" → fs p = fs2 p) →
      Config.conf fs = Config.conf fs2 := by
  refine ⟨rfl, ?_⟩
  intro fs fs2 h
  unfold Config.conf
  rw [h Config.conf_file (by decide)]

/-- Witness for C10: two file systems that differ only in the test file
produce the same configuration. -/
theorem C10_witness :
    (∀ p, p ≠ "conf-test.yml" → fsMissing p = fsTestOnly p) ∧
    Config.conf fsMissing = Config.conf fsTestOnly := by
  have h : ∀ p, p ≠ "conf-test.yml" → fsMissing p = fsTestOnly p := by
    intro p hp
    simp [fsMissing, fsTestOnly, hp]
  exact ⟨h, C10_conf_reads_fixed_path.2 fsMissing fsTestOnly h⟩

/-- Counterexample to claim C2: two mysql services constructed in sequence do
not get distinct driver instances — the second construction returns the first
instance, which carries the first service's fqdn, not the second's. -/
theorem C2_counterexample :
    demoMySQL2 = demoMySQL1 ∧ demoMySQL1.fqdn = "db-a.example" ∧
    demoMySQL2.fqdn ≠ "db-b.example" := by
  refine ⟨rfl, rfl, ?_⟩
  decide

/-- Claim C2 amended: each backend-driver class is a process-wide singleton.
The first construction of a class captures that service's fqdn, port and
credentials; every later construction of the same class returns the existing
instance unchanged, ignoring its own arguments — so two services of the same
type share one driver instance (per-service distinctness holds only across
different types). -/
theorem C2_amended_singleton_per_class :
    (∀ a f p, (MySQLConnection.new none a f p).fqdn = f ∧
        (MySQLConnection.new none a f p).port = p ∧
        (MySQLConnection.new none a f p).username = a.username ∧
        (MySQLConnection.new none a f p).password = a.password ∧
        (MySQLConnection.new none a f p).database = a.db ∧
        (MySQLConnection.new none a f p).connection = none) ∧
    (∀ i a f p, MySQLConnection.new (some i) a f p = i) ∧
    (∀ a f p, (PostgreSQLConnection.new none a f p).fqdn = f ∧
        (PostgreSQLConnection.new none a f p).port = p) ∧
    (∀ i a f p, PostgreSQLConnection.new (some i) a f p = i) ∧
    (∀ a f p, (RedisConnection.new none a f p).fqdn = f ∧
        (RedisConnection.new none a f p).port = p) ∧
    (∀ i a f p, RedisConnection.new (some i) a f p = i) ∧
    (∀ a f p, (RabbitMQConnection.new none a f p).fqdn = f ∧
        (RabbitMQConnection.new none a f p).port = p) ∧
    (∀ i a f p, RabbitMQConnection.new (some i) a f p = i) :=
  ⟨fun _ _ _ => ⟨rfl, rfl, rfl, rfl, rfl, rfl⟩, fun _ _ _ _ => rfl,
   fun _ _ _ => ⟨rfl, rfl⟩, fun _ _ _ _ => rfl,
   fun _ _ _ => ⟨rfl, rfl⟩, fun _ _ _ _ => rfl,
   fun _ _ _ => ⟨rfl, rfl⟩, fun _ _ _ _ => rfl⟩

/-- Counterexample to claim C4: with the configuration file missing or
malformed, `trigger_monitoring` raises `AttributeError` out of startup
(`services.items()` on `None`) instead of proceeding with zero probe loops. -/
theorem C4_counterexample :
    (trigger_monitoring fsMissing).raised = some PyExc.attributeError ∧
    (trigger_monitoring fsMissing).started = [] :=
  ⟨rfl, rfl⟩

/-- Claim C4 amended: if the configuration file is missing or malformed,
`Config.conf` yields an empty dict plus a critical log entry, but
`Config.services` then yields `None` (its `.get` default), and the
orchestrator raises `AttributeError` when iterating it: startup aborts after
the census thread was started, with zero probe loops started. -/
theorem C4_amended_missing_config_aborts :
    ∀ fs, fs Config.conf_file = .unreadable →
      Config.conf fs = (none, true) ∧
      Config.services fs = none ∧
      trigger_monitoring fs =
        { censusStarted := true, started := [], raised := some .attributeError } := by
  intro fs h
  refine ⟨?_, ?_, ?_⟩ <;> simp [trigger_monitoring, Config.services, Config.conf, h]

/-- Witness for the amended C4 at the all-missing file system. -/
theorem C4_amended_witness :
    fsMissing Config.conf_file = .unreadable ∧
    trigger_monitoring fsMissing =
      { censusStarted := true, started := [], raised := some .attributeError } :=
  ⟨rfl, (C4_amended_missing_config_aborts fsMissing rfl).2.2⟩

/-- Counterexample to claim C5: when a (stale) connection is already cached
and a forced reconnect fails with the driver's connection error, the cached
connection is not left unset — the old handle remains cached and is returned
to the caller, so the failure is not observable as an absent connection. -/
theorem C5_counterexample :
    staleMySQL.connection = some ⟨5, false⟩ ∧
    MySQLConnection.connect staleMySQL (.raises .mysqlError) = .ok staleMySQL ∧
    MySQLConnection.get_connection staleMySQL true (.raises .mysqlError) =
      .ok (some ⟨5, false⟩, staleMySQL, true) :=
  ⟨rfl, rfl, rfl⟩

/-- Claim C5 amended: for every driver variant, `connect()` never raises past
its boundary on a connection error of the class it catches (the driver error
class for mysql/postgresql, any exception for redis/rabbitmq); it logs and
leaves the driver's state — including any cached connection — unchanged.  In
particular a freshly constructed driver stays without a connection, so there
the failure is observable as no usable connection returned; but a stale cached
connection remains cached and is still returned. -/
theorem C5_amended_connect_error_keeps_state :
    (∀ s, MySQLConnection.connect s (.raises .mysqlError) = .ok s) ∧
    (∀ s, PostgreSQLConnection.connect s (.raises .psycopgError) = .ok s) ∧
    (∀ s e, RedisConnection.connect s (.raises e) = s) ∧
    (∀ s e, RabbitMQConnection.connect s (.raises e) = s) ∧
    (∀ a f p, MySQLConnection.get_connection (MySQLConnection.new none a f p) true
        (.raises .mysqlError) = .ok (none, MySQLConnection.new none a f p, true)) ∧
    (∀ a f p, PostgreSQLConnection.get_connection (PostgreSQLConnection.new none a f p)
        (.raises .psycopgError) = .ok (none, PostgreSQLConnection.new none a f p, true)) ∧
    (∀ a f p e, RedisConnection.get_connection (RedisConnection.new none a f p)
        (.raises e) = (none, RedisConnection.new none a f p, true)) ∧
    (∀ a f p e, RabbitMQConnection.get_connection (RabbitMQConnection.new none a f p)
        (.raises e) = (none, RabbitMQConnection.new none a f p, true)) :=
  ⟨fun _ => rfl, fun _ => rfl, fun _ _ => rfl, fun _ _ => rfl,
   fun _ _ _ => rfl, fun _ _ _ => rfl, fun _ _ _ _ => rfl, fun _ _ _ _ => rfl⟩

/-- Counterexample to claim C3: a service whose declared type resolves to no
module makes `create_monitoring_thread` raise `ModuleNotFoundError` (there is
no `ConfigurationError` anywhere), nothing catches it, and the remaining
configured services are never started. -/
theorem C3_counterexample :
    startServices demoServicesBadFirst = ([], some PyExc.moduleNotFoundError) ∧
    "svc-good" ∉ (startServices demoServicesBadFirst).1 := by
  refine ⟨?_, ?_⟩ <;> decide

/-- Helper: the modules that define a test class are all real src modules. -/
theorem mem_srcModules_of_mem_testClassModules :
    ∀ x ∈ testClassModules, x ∈ srcModules := by
  decide

/-- Claim C3 amended: a configured service whose type string does not resolve
raises `ModuleNotFoundError` out of `create_monitoring_thread` and out of the
orchestrator's loop (no `ConfigurationError` exists): the services placed
before it in iteration order are already started, but it aborts the startup of
every service after it. -/
theorem C3_amended_unknown_type_aborts_startup :
    ∀ (post : Services) (bad : String × String), bad.2 ∉ srcModules →
      ∀ pre : Services, (∀ s ∈ pre, s.2 ∈ testClassModules) →
        startServices (pre ++ bad :: post) =
          (pre.map Prod.fst, some PyExc.moduleNotFoundError) := by
  intro post bad hbad pre
  induction pre with
  | nil =>
      intro _
      simp [startServices, create_monitoring_thread, importModule, hbad]
  | cons s rest ih =>
      intro hpre
      have hs : s.2 ∈ testClassModules := hpre s (by simp)
      have hsrc : s.2 ∈ srcModules := mem_srcModules_of_mem_testClassModules s.2 hs
      have hcreate : create_monitoring_thread s.1 s.2 = .ok s.1 := by
        simp [create_monitoring_thread, importModule, hsrc, hs]
      have ih2 := ih (fun x hx => hpre x (by simp [hx]))
      obtain ⟨n, ty⟩ := s
      simp only [List.cons_append, startServices, hcreate, List.map_cons, List.append_eq, ih2]

/-- Witness for the amended C3: with a valid service before and after the
offending one, only the earlier service is started and the error escapes. -/
theorem C3_amended_witness :
    ("svc-bad", "mongodb").2 ∉ srcModules ∧
    (∀ s ∈ ([("svc-a", "redis")] : Services), s.2 ∈ testClassModules) ∧
    startServices ([("svc-a", "redis")] ++ ("svc-bad", "mongodb") :: [("svc-c", "mysql")]) =
      (["svc-a"], some PyExc.moduleNotFoundError) := by
  refine ⟨by decide, by decide, ?_⟩
  exact C3_amended_unknown_type_aborts_startup [("svc-c", "mysql")] ("svc-bad", "mongodb")
    (by decide) [("svc-a", "redis")] (by decide)

/-- Counterexample to claim C6: the postgresql variant does not reconnect when
the cached connection is observably closed — `get_connection` returns the
closed handle without calling `connect()`, even though a fresh connection was
available. -/
theorem C6_counterexample :
    pgClosedState.connection = some ⟨7, true⟩ ∧
    (Conn.mk 7 true).is_closed = true ∧
    PostgreSQLConnection.get_connection pgClosedState (.ok ⟨9, false⟩) =
      .ok (some ⟨7, true⟩, pgClosedState, false) :=
  ⟨rfl, rfl, rfl⟩

/-- Claim C6 amended: the rabbitmq variant reconnects exactly when the cache
is absent or the cached connection reports closed; the postgresql and redis
variants reconnect exactly when the cache is absent — a cached connection is
reused even when observably closed.  In all three variants the decision
depends only on the cached-connection field, never on the prior probe outcome
(`self.result` plays no role in any of their cycles). -/
theorem C6_amended_reuse_policy :
    (∀ s a out, PostgreSQLConnection.get_connection s a = .ok out →
        (out.2.2 = true ↔ s.connection = none)) ∧
    (∀ s a c, s.connection = some c →
        PostgreSQLConnection.get_connection s a = .ok (some c, s, false)) ∧
    (∀ s a, (RedisConnection.get_connection s a).2.2 = decide (s.connection = none)) ∧
    (∀ s a c, s.connection = some c →
        RedisConnection.get_connection s a = (some c, s, false)) ∧
    (∀ s a, (RabbitMQConnection.get_connection s a).2.2 =
        (match s.connection with | none => true | some c => c.is_closed)) ∧
    (∀ st st2 env, st.conn = st2.conn →
        postgresql_test.query_check_cycle st env = postgresql_test.query_check_cycle st2 env) ∧
    (∀ st st2 env, st.conn = st2.conn →
        redis_test.test_redis_cycle st env = redis_test.test_redis_cycle st2 env) := by
  refine ⟨?_, ?_, ?_, ?_, ?_, ?_, ?_⟩
  · intro s a out h
    obtain ⟨o1, o2, o3⟩ := out
    by_cases hc : s.connection = none
    · simp only [PostgreSQLConnection.get_connection, if_pos hc] at h
      cases hcon : PostgreSQLConnection.connect s a <;> rw [hcon] at h <;> simp_all
    · simp only [PostgreSQLConnection.get_connection, if_neg hc] at h
      simp_all
  · intro s a c h
    simp [PostgreSQLConnection.get_connection, h]
  · intro s a
    by_cases h : s.connection = none <;> simp [RedisConnection.get_connection, h]
  · intro s a c h
    simp [RedisConnection.get_connection, h]
  · intro s a
    cases hc : s.connection with
    | none => simp [RabbitMQConnection.get_connection, hc]
    | some c =>
        by_cases hcl : c.is_closed <;>
          simp [RabbitMQConnection.get_connection, RabbitMQConnection.connect, hc, hcl]
  · intro st st2 env h
    simp only [postgresql_test.query_check_cycle, h]
  · intro st st2 env h
    simp only [redis_test.test_redis_cycle, h]

/-- Witness for the amended C6 at concrete states: a cached closed postgresql
connection is reused (no connect call), and a prior-failure flag changes
nothing in a postgresql cycle. -/
theorem C6_amended_witness :
    pgClosedState.connection = some ⟨7, true⟩ ∧
    PostgreSQLConnection.get_connection pgClosedState (.ok ⟨9, false⟩) =
      .ok (some ⟨7, true⟩, pgClosedState, false) ∧
    ({ conn := pgClosedState, result := false } : PgTestState).conn =
      ({ conn := pgClosedState, result := true } : PgTestState).conn ∧
    postgresql_test.query_check_cycle { conn := pgClosedState, result := false }
        { attempt := .ok ⟨9, false⟩, query := .row 1 } =
      postgresql_test.query_check_cycle { conn := pgClosedState, result := true }
        { attempt := .ok ⟨9, false⟩, query := .row 1 } := by
  refine ⟨rfl, ?_, rfl, ?_⟩
  · exact C6_amended_reuse_policy.2.1 pgClosedState (.ok ⟨9, false⟩) ⟨7, true⟩ rfl
  · exact C6_amended_reuse_policy.2.2.2.2.2.1 _ _ _ rfl

/-- Helper: `MySQLConnection.connect` only lets non-driver-class exceptions
escape. -/
theorem mysql_connect_error_not_driver (s : MySQLConnState) (a : ConnAttempt)
    (e : PyExc) (h : MySQLConnection.connect s a = .error e) :
    e ≠ PyExc.mysqlError := by
  cases a with
  | ok c => simp [MySQLConnection.connect] at h
  | raises e2 =>
      by_cases he : e2 = PyExc.mysqlError <;> simp [MySQLConnection.connect, he] at h
      subst h
      exact he

/-- Helper: `PostgreSQLConnection.connect` only lets non-driver-class
exceptions escape. -/
theorem pg_connect_error_not_driver (s : PostgreSQLConnState) (a : ConnAttempt)
    (e : PyExc) (h : PostgreSQLConnection.connect s a = .error e) :
    e ≠ PyExc.psycopgError := by
  cases a with
  | ok c => simp [PostgreSQLConnection.connect] at h
  | raises e2 =>
      by_cases he : e2 = PyExc.psycopgError <;> simp [PostgreSQLConnection.connect, he] at h
      subst h
      exact he

/-- Helper: `MySQLConnection.get_connection` only lets non-driver-class
exceptions escape. -/
theorem mysql_get_connection_error_not_driver (s : MySQLConnState) (force : Bool)
    (a : ConnAttempt) (e : PyExc)
    (h : MySQLConnection.get_connection s force a = .error e) :
    e ≠ PyExc.mysqlError := by
  unfold MySQLConnection.get_connection at h
  by_cases hf : force
  · rw [if_pos hf] at h
    cases hcon : MySQLConnection.connect s a <;> rw [hcon] at h <;> simp_all
    exact mysql_connect_error_not_driver s a e hcon
  · rw [if_neg hf] at h
    by_cases hc : s.connection = none
    · rw [if_pos hc] at h
      cases hcon : MySQLConnection.connect s a <;> rw [hcon] at h <;> simp_all
      exact mysql_connect_error_not_driver s a e hcon
    · rw [if_neg hc] at h
      simp at h

/-- Helper: `PostgreSQLConnection.get_connection` only lets non-driver-class
exceptions escape. -/
theorem pg_get_connection_error_not_driver (s : PostgreSQLConnState)
    (a : ConnAttempt) (e : PyExc)
    (h : PostgreSQLConnection.get_connection s a = .error e) :
    e ≠ PyExc.psycopgError := by
  unfold PostgreSQLConnection.get_connection at h
  by_cases hc : s.connection = none
  · rw [if_pos hc] at h
    cases hcon : PostgreSQLConnection.connect s a <;> rw [hcon] at h <;> simp_all
    exact pg_connect_error_not_driver s a e hcon
  · rw [if_neg hc] at h
    simp at h

/-- Counterexample to claim C1: with the backend unreachable (the underlying
connect raises `mysql.connector.Error`), the very first cycle of
`mysql_test.query_check` raises an uncaught `AttributeError` from
`None.cursor()`: the loop terminates, no failure outcome is recorded, and the
next cycle never runs — a backend-originating error terminates the probe
loop. -/
theorem C1_counterexample :
    mysql_test.query_check mysqlInitState [envConnFail, envOk] =
      ([], some PyExc.attributeError) := by
  decide

/-- Claim C1 amended: only exceptions of the backend driver's error class
(`mysql.connector.Error` / `psycopg2.Error`) raised while obtaining a
connection or running the exercise are caught inside the loop, recorded as
outcome=failure (gauge write 0), after which the loop proceeds to its next
cycle; any other exception escapes and terminates the loop — in particular,
after a failed connect the cached connection is `None` and the cycle raises an
uncaught `AttributeError`. -/
theorem C1_amended_driver_errors_only :
    (∀ st env e, mysql_test.query_check_cycle st env = .error e →
        e ≠ PyExc.mysqlError) ∧
    (∀ st env e, postgresql_test.query_check_cycle st env = .error e →
        e ≠ PyExc.psycopgError) ∧
    (∀ st env out, mysql_test.query_check_cycle st env = .ok out →
        env.query = .raises .mysqlError →
        out.metricVal = 0 ∧ out.state.result = false) ∧
    (∀ st env rest out, mysql_test.query_check_cycle st env = .ok out →
        mysql_test.query_check st (env :: rest) =
          (out.metricVal :: (mysql_test.query_check out.state rest).1,
            (mysql_test.query_check out.state rest).2)) ∧
    (∀ st env, st.conn.connection = none → env.attempt = .raises .mysqlError →
        mysql_test.query_check_cycle st env = .error .attributeError) := by
  refine ⟨?_, ?_, ?_, ?_, ?_⟩
  · intro st env e h
    unfold mysql_test.query_check_cycle at h
    cases hg : MySQLConnection.get_connection st.conn (!st.result) env.attempt with
    | error e2 =>
        rw [hg] at h
        by_cases he : e2 = PyExc.mysqlError <;> simp [he] at h
        subst h
        exact mysql_get_connection_error_not_driver st.conn (!st.result) env.attempt e2 hg
    | ok trip =>
        obtain ⟨connOpt, cs, called⟩ := trip
        rw [hg] at h
        cases connOpt with
        | none => simp at h; simp [← h]
        | some c =>
            cases hq : env.query with
            | row v => rw [hq] at h; simp at h
            | raises e2 =>
                rw [hq] at h
                by_cases he : e2 = PyExc.mysqlError <;> simp [he] at h
                subst h
                exact he
  · intro st env e h
    unfold postgresql_test.query_check_cycle at h
    cases hg : PostgreSQLConnection.get_connection st.conn env.attempt with
    | error e2 =>
        rw [hg] at h
        by_cases he : e2 = PyExc.psycopgError <;> simp [he] at h
        subst h
        exact pg_get_connection_error_not_driver st.conn env.attempt e2 hg
    | ok trip =>
        obtain ⟨connOpt, cs, called⟩ := trip
        rw [hg] at h
        cases connOpt with
        | none => simp at h; simp [← h]
        | some c =>
            cases hq : env.query with
            | row v => rw [hq] at h; simp at h
            | raises e2 =>
                rw [hq] at h
                by_cases he : e2 = PyExc.psycopgError <;> simp [he] at h
                subst h
                exact he
  · intro st env out h hq
    unfold mysql_test.query_check_cycle at h
    cases hg : MySQLConnection.get_connection st.conn (!st.result) env.attempt with
    | error e2 =>
        rw [hg] at h
        by_cases he : e2 = PyExc.mysqlError <;> simp [he] at h
        simp [← h]
    | ok trip =>
        obtain ⟨connOpt, cs, called⟩ := trip
        rw [hg] at h
        cases connOpt with
        | none => simp at h
        | some c =>
            rw [hq] at h
            simp at h
            simp [← h]
  · intro st env rest out h
    rcases hqq : mysql_test.query_check out.state rest with ⟨tr, d⟩
    simp [mysql_test.query_check, h, hqq]
  · intro st env hconn hatt
    unfold mysql_test.query_check_cycle MySQLConnection.get_connection
    rw [hconn, hatt]
    cases hr : st.result <;> simp [MySQLConnection.connect, hconn]

/-- Witness for the amended C1: a caught driver-class query error records a
failure and lets the loop continue, while a failed connect on a fresh driver
raises an uncaught `AttributeError`. -/
theorem C1_amended_witness :
    mysqlInitState.conn.connection = none ∧
    envConnFail.attempt = .raises .mysqlError ∧
    mysql_test.query_check_cycle mysqlInitState envConnFail =
      .error .attributeError ∧
    envQueryErr.query = .raises .mysqlError ∧
    mysql_test.query_check_cycle { conn := staleMySQL, result := true } envQueryErr =
      .ok { state := { conn := staleMySQL, result := false }, metricVal := 0,
            forceUsed := false, connectCalled := false } ∧
    (0 = 0 ∧ false = false) := by
  have hcy : mysql_test.query_check_cycle { conn := staleMySQL, result := true } envQueryErr =
      .ok { state := { conn := staleMySQL, result := false }, metricVal := 0,
            forceUsed := false, connectCalled := false } := by decide
  refine ⟨rfl, rfl, ?_, rfl, hcy, ?_⟩
  · exact C1_amended_driver_errors_only.2.2.2.2 mysqlInitState envConnFail rfl rfl
  · exact C1_amended_driver_errors_only.2.2.1 _ envQueryErr _ hcy rfl

/-- Helper: the boolean outcome of the redis `try` body (failure on any
escaped exception) coincides with the spec-side success condition
`redisExerciseSpec`. -/
theorem redis_tryBody_spec (connOpt : Option Conn) (env : RedisEnv) :
    (match redisTryBody connOpt env with
      | .ok r => r
      | .error _ => false) = redisExerciseSpec connOpt env := by
  obtain ⟨att, setR, getR, incrR, cgetR, delK, delC, exR⟩ := env
  rcases connOpt with _ | c <;>
    rcases setR with e1 | u1 <;>
    rcases getR with e2 | (_ | v) <;>
    rcases incrR with e3 | n3 <;>
    rcases cgetR with e4 | (_ | c4) <;>
    rcases delK with e5 | n5 <;>
    rcases delC with e6 | n6 <;>
    rcases exR with e7 | n7 <;>
    first
      | (by_cases hv : v = redisPayload <;>
          simp [redisTryBody, redisExerciseSpec, hv])
      | simp [redisTryBody, redisExerciseSpec]

/-- Claim C7 (confirmed): the cache-variant exercise records success exactly
when every sub-step of the sequence succeeds in order — the sentinel key is
set, read back equal to the payload, the counter is incremented and read back,
both keys are deleted, and the post-delete existence check reports the
sentinel key absent (`exists == 0`); any wrong value, a delete that leaves the
key present, or an exception anywhere yields failure — and the gauge write is
1 exactly on success, else 0. -/
theorem C7_cache_exercise_iff :
    ∀ st env,
      (redis_test.test_redis_cycle st env).1.result =
        redisExerciseSpec (RedisConnection.get_connection st.conn env.attempt).1 env ∧
      (redis_test.test_redis_cycle st env).2 =
        (if (redis_test.test_redis_cycle st env).1.result then 1 else 0) := by
  intro st env
  have hb := redis_tryBody_spec (RedisConnection.get_connection st.conn env.attempt).1 env
  rcases hG : RedisConnection.get_connection st.conn env.attempt with ⟨connOpt, cs, flag⟩
  rw [hG] at hb
  simp only at hb
  simp only [redis_test.test_redis_cycle, hG]
  rcases hT : redisTryBody connOpt env with e | r
  · rw [hT] at hb
    simp only at hb
    simp [← hb]
  · rw [hT] at hb
    simp only at hb
    cases r <;> simp [← hb]

/-- Claim C8 (confirmed): in `mysql_test.query_check`, `get_connection` is
called with `force` exactly when the preceding probe outcome (`self.result`)
was failure; the forced call re-establishes the connection when the underlying
connect succeeds; after a success (which always leaves a cached connection)
the next cycle reuses the cached connection without calling `connect()`. -/
theorem C8_mysql_force_policy :
    ∀ st env out, mysql_test.query_check_cycle st env = .ok out →
      out.forceUsed = !st.result ∧
      (st.result = false → out.connectCalled = true) ∧
      (st.result = false → ∀ c, env.attempt = .ok c →
          out.state.conn.connection = some c) ∧
      (st.result = true → st.conn.connection ≠ none →
          out.connectCalled = false ∧ out.state.conn = st.conn) ∧
      (out.metricVal = 1 → out.state.result = true ∧
          out.state.conn.connection ≠ none) := by
  intro st env out h
  obtain ⟨att, q⟩ := env
  obtain ⟨conn, res⟩ := st
  cases res with
  | false =>
      cases att with
      | ok c =>
          cases q with
          | row v =>
              simp [mysql_test.query_check_cycle, MySQLConnection.get_connection,
                MySQLConnection.connect] at h
              subst h
              refine ⟨by simp, by simp, ?_, ?_, ?_⟩
              · intro hres c2 hc2
                simp_all
              · intro hres hcon
                simp_all
              · intro hm
                by_cases hv : v = (1 : Int) <;> simp_all
          | raises e3 =>
              by_cases he3 : e3 = PyExc.mysqlError
              · simp [mysql_test.query_check_cycle, MySQLConnection.get_connection,
                  MySQLConnection.connect, he3] at h
                subst h
                refine ⟨by simp, by simp, ?_, ?_, ?_⟩
                · intro hres c2 hc2
                  simp_all
                · intro hres hcon
                  simp_all
                · intro hm
                  simp_all
              · simp [mysql_test.query_check_cycle, MySQLConnection.get_connection,
                  MySQLConnection.connect, he3] at h
      | raises e2 =>
          by_cases he2 : e2 = PyExc.mysqlError
          · cases hc : conn.connection with
            | none =>
                simp [mysql_test.query_check_cycle, MySQLConnection.get_connection,
                  MySQLConnection.connect, he2, hc] at h
            | some c0 =>
                cases q with
                | row v =>
                    simp [mysql_test.query_check_cycle, MySQLConnection.get_connection,
                      MySQLConnection.connect, he2, hc] at h
                    subst h
                    refine ⟨by simp, by simp, ?_, ?_, ?_⟩
                    · intro hres c2 hc2
                      simp_all
                    · intro hres hcon
                      simp_all
                    · intro hm
                      by_cases hv : v = (1 : Int) <;> simp_all
                | raises e3 =>
                    by_cases he3 : e3 = PyExc.mysqlError
                    · simp [mysql_test.query_check_cycle, MySQLConnection.get_connection,
                        MySQLConnection.connect, he2, he3, hc] at h
                      subst h
                      refine ⟨by simp, by simp, ?_, ?_, ?_⟩
                      · intro hres c2 hc2
                        simp_all
                      · intro hres hcon
                        simp_all
                      · intro hm
                        simp_all
                    · simp [mysql_test.query_check_cycle, MySQLConnection.get_connection,
                        MySQLConnection.connect, he2, he3, hc] at h
          · simp [mysql_test.query_check_cycle, MySQLConnection.get_connection,
              MySQLConnection.connect, he2] at h
  | true =>
      cases hc : conn.connection with
      | none =>
          cases att with
          | ok c =>
              cases q with
              | row v =>
                  simp [mysql_test.query_check_cycle, MySQLConnection.get_connection,
                    MySQLConnection.connect, hc] at h
                  subst h
                  refine ⟨by simp, by simp, ?_, ?_, ?_⟩
                  · intro hres c2 hc2
                    simp_all
                  · intro hres hcon
                    simp_all
                  · intro hm
                    by_cases hv : v = (1 : Int) <;> simp_all
              | raises e3 =>
                  by_cases he3 : e3 = PyExc.mysqlError
                  · simp [mysql_test.query_check_cycle, MySQLConnection.get_connection,
                      MySQLConnection.connect, hc, he3] at h
                    subst h
                    refine ⟨by simp, by simp, ?_, ?_, ?_⟩
                    · intro hres c2 hc2
                      simp_all
                    · intro hres hcon
                      simp_all
                    · intro hm
                      simp_all
                  · simp [mysql_test.query_check_cycle, MySQLConnection.get_connection,
                      MySQLConnection.connect, hc, he3] at h
          | raises e2 =>
              simp [mysql_test.query_check_cycle, MySQLConnection.get_connection,
                MySQLConnection.connect, hc] at h
              by_cases he2 : e2 = PyExc.mysqlError <;> simp [he2, hc] at h
      | some c0 =>
          cases q with
          | row v =>
              simp [mysql_test.query_check_cycle, MySQLConnection.get_connection,
                hc] at h
              subst h
              refine ⟨by simp, by simp, ?_, ?_, ?_⟩
              · intro hres c2 hc2
                simp_all
              · intro hres hcon
                refine ⟨by simp, by simp⟩
              · intro hm
                by_cases hv : v = (1 : Int) <;> simp_all
          | raises e3 =>
              by_cases he3 : e3 = PyExc.mysqlError
              · simp [mysql_test.query_check_cycle, MySQLConnection.get_connection,
                  hc, he3] at h
                subst h
                refine ⟨by simp, by simp, ?_, ?_, ?_⟩
                · intro hres c2 hc2
                  simp_all
                · intro hres hcon
                  refine ⟨by simp, by simp⟩
                · intro hm
                  simp_all
              · simp [mysql_test.query_check_cycle, MySQLConnection.get_connection,
                  hc, he3] at h

/-- Witness for C8 at a concrete state: after a success with a cached
connection, the next cycle runs unforced and reuses the cached connection. -/
theorem C8_witness :
    mysql_test.query_check_cycle { conn := staleMySQL, result := true } envOk =
      .ok { state := { conn := staleMySQL, result := true }, metricVal := 1,
            forceUsed := false, connectCalled := false } ∧
    ({ state := { conn := staleMySQL, result := true }, metricVal := 1,
        forceUsed := false, connectCalled := false } : MysqlCycleOut).forceUsed =
      !({ conn := staleMySQL, result := true } : MysqlTestState).result ∧
    ({ state := { conn := staleMySQL, result := true }, metricVal := 1,
        forceUsed := false, connectCalled := false } : MysqlCycleOut).connectCalled = false ∧
    ({ state := { conn := staleMySQL, result := true }, metricVal := 1,
        forceUsed := false, connectCalled := false } : MysqlCycleOut).state.conn =
      ({ conn := staleMySQL, result := true } : MysqlTestState).conn := by
  have hcy : mysql_test.query_check_cycle { conn := staleMySQL, result := true } envOk =
      .ok { state := { conn := staleMySQL, result := true }, metricVal := 1,
            forceUsed := false, connectCalled := false } := by decide
  have hall := C8_mysql_force_policy _ _ _ hcy
  exact ⟨hcy, hall.1, hall.2.2.2.1 rfl (by decide)⟩

/-- Helper: a boolean-driven gauge write is 0 or 1. -/
theorem ite_zero_one (b : Bool) :
    (if b then (1 : Nat) else 0) = 0 ∨ (if b then (1 : Nat) else 0) = 1 := by
  cases b <;> simp

/-- Helper: one mysql cycle only ever writes 0 or 1 to the gauge. -/
theorem mysql_cycle_metric_binary (st : MysqlTestState) (env : DbEnv)
    (out : MysqlCycleOut) (h : mysql_test.query_check_cycle st env = .ok out) :
    out.metricVal = 0 ∨ out.metricVal = 1 := by
  unfold mysql_test.query_check_cycle at h
  repeat' split at h
  all_goals simp only [reduceCtorEq, Except.ok.injEq] at h
  all_goals subst h
  all_goals first
    | exact Or.inl rfl
    | exact Or.inr rfl

/-- Helper: one postgresql cycle only ever writes 0 or 1 to the gauge. -/
theorem pg_cycle_metric_binary (st : PgTestState) (env : DbEnv)
    (out : PgCycleOut) (h : postgresql_test.query_check_cycle st env = .ok out) :
    out.metricVal = 0 ∨ out.metricVal = 1 := by
  unfold postgresql_test.query_check_cycle at h
  repeat' split at h
  all_goals simp only [reduceCtorEq, Except.ok.injEq] at h
  all_goals subst h
  all_goals first
    | exact Or.inl rfl
    | exact Or.inr rfl
    | exact ite_zero_one _

/-- Helper: one redis cycle only ever writes 0 or 1 to the gauge. -/
theorem redis_cycle_metric_binary (st : RedisTestState) (env : RedisEnv) :
    (redis_test.test_redis_cycle st env).2 = 0 ∨
      (redis_test.test_redis_cycle st env).2 = 1 := by
  unfold redis_test.test_redis_cycle
  rcases h2 : redisTryBody (RedisConnection.get_connection st.conn env.attempt).1 env
    with e | r
  · simp [h2]
  · cases r <;> simp [h2]

/-- Helper: one rabbitmq publisher cycle only ever writes 0 or 1. -/
theorem rabbit_send_cycle_metric_binary (st : RabbitTestState) (env : RabbitSendEnv) :
    (rabbitmq_test.send_message_test_cycle st env).2 = 0 ∨
      (rabbitmq_test.send_message_test_cycle st env).2 = 1 := by
  unfold rabbitmq_test.send_message_test_cycle
  exact ite_zero_one _

/-- Helper: every write of one rabbitmq consumer cycle is 0 or 1. -/
theorem rabbit_read_cycle_writes_binary (st : RabbitTestState) (env : RabbitReadEnv) :
    ∀ v ∈ (rabbitmq_test.read_message_test_cycle st env).2, v = 0 ∨ v = 1 := by
  intro v hv
  unfold rabbitmq_test.read_message_test_cycle at hv
  split at hv
  · rcases List.mem_append.1 hv with h | h
    · exact Or.inr (List.eq_of_mem_replicate h)
    · split at h
      · simp at h
        exact Or.inl h
      · simp at h
  · simp at hv
    exact Or.inl hv

/-- Helper: the mysql loop trace holds only 0s and 1s. -/
theorem mysql_trace_binary :
    ∀ (envs : List DbEnv) (st : MysqlTestState) (v : Nat),
      v ∈ (mysql_test.query_check st envs).1 → v = 0 ∨ v = 1 := by
  intro envs
  induction envs with
  | nil => intro st v hv; simp [mysql_test.query_check] at hv
  | cons env rest ih =>
      intro st v hv
      rcases hcy : mysql_test.query_check_cycle st env with e | out
      · simp [mysql_test.query_check, hcy] at hv
      · rcases hqq : mysql_test.query_check out.state rest with ⟨tr, d⟩
        simp only [mysql_test.query_check, hcy, hqq, List.mem_cons] at hv
        rcases hv with rfl | hv
        · exact mysql_cycle_metric_binary st env out hcy
        · exact ih out.state v (by rw [hqq]; exact hv)

/-- Helper: the postgresql loop trace holds only 0s and 1s. -/
theorem pg_trace_binary :
    ∀ (envs : List DbEnv) (st : PgTestState) (v : Nat),
      v ∈ (postgresql_test.query_check st envs).1 → v = 0 ∨ v = 1 := by
  intro envs
  induction envs with
  | nil => intro st v hv; simp [postgresql_test.query_check] at hv
  | cons env rest ih =>
      intro st v hv
      rcases hcy : postgresql_test.query_check_cycle st env with e | out
      · simp [postgresql_test.query_check, hcy] at hv
      · rcases hqq : postgresql_test.query_check out.state rest with ⟨tr, d⟩
        simp only [postgresql_test.query_check, hcy, hqq, List.mem_cons] at hv
        rcases hv with rfl | hv
        · exact pg_cycle_metric_binary st env out hcy
        · exact ih out.state v (by rw [hqq]; exact hv)

/-- Helper: the redis loop trace holds only 0s and 1s. -/
theorem redis_trace_binary :
    ∀ (envs : List RedisEnv) (st : RedisTestState) (v : Nat),
      v ∈ redis_test.test_redis st envs → v = 0 ∨ v = 1 := by
  intro envs
  induction envs with
  | nil => intro st v hv; simp [redis_test.test_redis] at hv
  | cons env rest ih =>
      intro st v hv
      simp only [redis_test.test_redis, List.mem_cons] at hv
      rcases hv with rfl | hv
      · exact redis_cycle_metric_binary st env
      · exact ih _ v hv

/-- Helper: the rabbitmq publisher loop trace holds only 0s and 1s. -/
theorem rabbit_send_trace_binary :
    ∀ (envs : List RabbitSendEnv) (st : RabbitTestState) (v : Nat),
      v ∈ rabbitmq_test.send_message_test st envs → v = 0 ∨ v = 1 := by
  intro envs
  induction envs with
  | nil => intro st v hv; simp [rabbitmq_test.send_message_test] at hv
  | cons env rest ih =>
      intro st v hv
      simp only [rabbitmq_test.send_message_test, List.mem_cons] at hv
      rcases hv with rfl | hv
      · exact rabbit_send_cycle_metric_binary st env
      · exact ih _ v hv

/-- Helper: the rabbitmq consumer loop trace holds only 0s and 1s. -/
theorem rabbit_read_trace_binary :
    ∀ (envs : List RabbitReadEnv) (st : RabbitTestState) (v : Nat),
      v ∈ rabbitmq_test.read_message_test st envs → v = 0 ∨ v = 1 := by
  intro envs
  induction envs with
  | nil => intro st v hv; simp [rabbitmq_test.read_message_test] at hv
  | cons env rest ih =>
      intro st v hv
      simp only [rabbitmq_test.read_message_test, List.mem_append] at hv
      rcases hv with hv | hv
      · exact rabbit_read_cycle_writes_binary st env v hv
      · exact ih _ v hv

/-- Claim C9 (confirmed): every value any probe execution unit ever writes to
a per-service health gauge — across the mysql, postgresql and redis loops and
both rabbitmq sub-probes — is exactly 0 or 1. -/
theorem C9_gauge_writes_binary :
    ∀ (st1 : MysqlTestState) (envs1 : List DbEnv)
      (st2 : PgTestState) (envs2 : List DbEnv)
      (st3 : RedisTestState) (envs3 : List RedisEnv)
      (st4 : RabbitTestState) (envs4 : List RabbitSendEnv)
      (st5 : RabbitTestState) (envs5 : List RabbitReadEnv) (v : Nat),
      (v ∈ (mysql_test.query_check st1 envs1).1 ∨
       v ∈ (postgresql_test.query_check st2 envs2).1 ∨
       v ∈ redis_test.test_redis st3 envs3 ∨
       v ∈ rabbitmq_test.send_message_test st4 envs4 ∨
       v ∈ rabbitmq_test.read_message_test st5 envs5) →
      v = 0 ∨ v = 1 := by
  intro st1 envs1 st2 envs2 st3 envs3 st4 envs4 st5 envs5 v hv
  rcases hv with hv | hv | hv | hv | hv
  · exact mysql_trace_binary envs1 st1 v hv
  · exact pg_trace_binary envs2 st2 v hv
  · exact redis_trace_binary envs3 st3 v hv
  · exact rabbit_send_trace_binary envs4 st4 v hv
  · exact rabbit_read_trace_binary envs5 st5 v hv

/-- Witness for C9 at a concrete trace: the healthy first mysql cycle writes
1, which is 0 or 1. -/
theorem C9_witness :
    ((1 : Nat) ∈ (mysql_test.query_check mysqlInitState [envOk]).1 ∨
     (1 : Nat) ∈ (postgresql_test.query_check
        { conn := pgClosedState, result := false } []).1 ∨
     (1 : Nat) ∈ redis_test.test_redis
        { conn := RedisConnection.new none { password := none, db := none } "r" 6379,
          result := false } [] ∨
     (1 : Nat) ∈ rabbitmq_test.send_message_test
        { conn := RabbitMQConnection.new none { username := none, password := none }
            "q" 5672 } [] ∨
     (1 : Nat) ∈ rabbitmq_test.read_message_test
        { conn := RabbitMQConnection.new none { username := none, password := none }
            "q" 5672 } []) ∧
    ((1 : Nat) = 0 ∨ (1 : Nat) = 1) := by
  have hm : (1 : Nat) ∈ (mysql_test.query_check mysqlInitState [envOk]).1 := by decide
  exact ⟨Or.inl hm,
    C9_gauge_writes_binary mysqlInitState [envOk]
      { conn := pgClosedState, result := false } []
      { conn := RedisConnection.new none { password := none, db := none } "r" 6379,
        result := false } []
      { conn := RabbitMQConnection.new none { username := none, password := none }
          "q" 5672 } []
      { conn := RabbitMQConnection.new none { username := none, password := none }
          "q" 5672 } [] 1 (Or.inl hm)⟩
